import Mathlib

/-!
A shallow embedding of the stripe-go client library: the subscription and
plan resource clients (src/sub/client.go, src/plan/client.go), the request
bodies they build, the generic list-iterator contract, and the event value
lookup helpers (the Event file).  Parts of the stripe core package that are
not in the sources (Params.AppendTo, CardParams.AppendDetails, ListParams
and the iterator engine) are modelled from the specification and marked as
such in their doc comments.
-/

namespace Stripe

/-- Request bodies: the ordered multi-value form data the clients build,
modelling url.Values together with the order in which Add was called. -/
abbrev Body := List (String × String)

/-- One conditionally added body entry: models a Go
if cond then body.Add(k, v) block. -/
def optKV (c : Prop) [Decidable c] (k v : String) : Body :=
  if c then [(k, v)] else []

/-- Models strconv.FormatUint(n, 10). -/
def formatUint (n : Nat) : String := Nat.repr n

/-- Models strconv.FormatInt(i, 10). -/
def formatInt (i : Int) : String :=
  if i < 0 then "-" ++ Nat.repr i.natAbs else Nat.repr i.natAbs

/-- Models strconv.FormatBool(b). -/
def formatBool (b : Bool) : String := if b then "true" else "false"

/-- Models strconv.FormatFloat(f, 102, 2, 64) with format verb f: fixed
point notation with exactly two digits after the decimal point.  The
float64 argument is modelled as a rational number, scaled by 100 and
rounded to the nearest integer. -/
def formatFloat2 (q : ℚ) : String :=
  (if round (q * 100) < 0 then "-" else "")
    ++ Nat.repr ((round (q * 100)).natAbs / 100)
    ++ "."
    ++ String.mk [Nat.digitChar ((round (q * 100)).natAbs / 10 % 10),
                  Nat.digitChar ((round (q * 100)).natAbs % 10)]

/-- Modelled from the spec: the shared Params mixin appended by
Params.AppendTo, whose body is not under src/.  The spec says the encoder
emits only the optional fields that differ from their zero value, so the
mixin is modelled as the list of already-encoded entries it contributes,
empty at the zero value. -/
structure Params where
  extra : Body := []
  deriving DecidableEq

/-- Modelled from the spec: Params.AppendTo adds the shared entries to the
body being built. -/
def Params.appendTo (p : Params) (b : Body) : Body := b ++ p.extra

/-- Modelled from the spec: the nested card bundle.  AppendDetails is not
under src/; the spec says a nested object contributes its own fields under
its own encoding rule, so those fields are modelled as the entry list that
AppendDetails would add.  The Token field is read directly by
src/sub/client.go. -/
structure CardParams where
  Token : String := ""
  details : Body := []
  deriving DecidableEq

/-- Modelled from the spec: CardParams.AppendDetails expands the nested
card object into the body. -/
def CardParams.appendDetails (c : CardParams) (b : Body) : Body := b ++ c.details

/-- Modelled from the spec: common paging controls (cursor bounds, page
size limit, optional filter set). -/
structure ListParams where
  Start : String := ""
  End : String := ""
  Limit : Nat := 0
  Filters : Body := []
  deriving DecidableEq

/-- Modelled from the spec: the encoding of ListParams into a request
body; only fields differing from their zero value are emitted, the cursor
key names following the remote API's after and before cursors. -/
def ListParams.appendTo (lp : ListParams) (b : Body) : Body :=
  ((b ++ optKV (0 < lp.End.length) "ending_before" lp.End)
      ++ optKV (0 < lp.Start.length) "starting_after" lp.Start
      ++ optKV (0 < lp.Limit) "limit" (formatUint lp.Limit))
    ++ lp.Filters

/-- stripe.SubParams: the fields read by src/sub/client.go (int64 as Int,
uint64 as Nat, float64 as a rational). -/
structure SubParams where
  P : Params := {}
  Customer : String := ""
  Plan : String := ""
  Token : String := ""
  Card : Option CardParams := none
  Coupon : String := ""
  TrialEnd : Int := 0
  Quantity : Nat := 0
  FeePercent : ℚ := 0
  NoProrate : Bool := false
  EndCancel : Bool := false

/-- stripe.SubListParams: the fields read by Client.List in
src/sub/client.go. -/
structure SubListParams where
  LP : ListParams := {}
  Customer : String := ""

/-- stripe.PlanParams: the fields read by src/plan/client.go. -/
structure PlanParams where
  P : Params := {}
  ID : String := ""
  Name : String := ""
  Amount : Nat := 0
  Currency : String := ""
  Interval : String := ""
  IntervalCount : Nat := 0
  TrialPeriod : Nat := 0
  Statement : String := ""

/-- stripe.PlanListParams: only the embedded ListParams. -/
structure PlanListParams where
  LP : ListParams := {}

/-- The body built by sub Client.New (src/sub/client.go): the required
plan key, then the conditional card, coupon, trial_end, quantity and
application_fee_percent entries, then the shared params. -/
def subNewBody (p : SubParams) : Body :=
  (((((([("plan", p.Plan)]
      ++ (if 0 < p.Token.length then [("card", p.Token)]
          else match p.Card with
               | some c => c.details
               | none => []))
      ++ optKV (0 < p.Coupon.length) "coupon" p.Coupon)
      ++ optKV (0 < p.TrialEnd) "trial_end" (formatInt p.TrialEnd))
      ++ optKV (0 < p.Quantity) "quantity" (formatUint p.Quantity))
      ++ optKV (0 < p.FeePercent) "application_fee_percent" (formatFloat2 p.FeePercent)))
    ++ p.P.extra

/-- The body built by sub Client.Get: only the shared params. -/
def subGetBody (p : SubParams) : Body := p.P.extra

/-- The body built by sub Client.Update (src/sub/client.go): conditional
plan, prorate, card (preferring the raw token over the nested card, and
the nested card token over its details), coupon, trial_end, quantity and
application_fee_percent entries, then the shared params. -/
def subUpdateBody (p : SubParams) : Body :=
  ((((((optKV (0 < p.Plan.length) "plan" p.Plan
      ++ optKV (p.NoProrate = true) "prorate" (formatBool false))
      ++ (if 0 < p.Token.length then [("card", p.Token)]
          else match p.Card with
               | some c =>
                   if 0 < c.Token.length then [("card", c.Token)] else c.details
               | none => []))
      ++ optKV (0 < p.Coupon.length) "coupon" p.Coupon)
      ++ optKV (0 < p.TrialEnd) "trial_end" (formatInt p.TrialEnd))
      ++ optKV (0 < p.Quantity) "quantity" (formatUint p.Quantity))
      ++ optKV (0 < p.FeePercent) "application_fee_percent" (formatFloat2 p.FeePercent))
    ++ p.P.extra

/-- The body built by sub Client.Cancel: the conditional at_period_end
entry, then the shared params. -/
def subCancelBody (p : SubParams) : Body :=
  optKV (p.EndCancel = true) "at_period_end" (formatBool true) ++ p.P.extra

/-- The body built by sub Client.List: the encoded list params. -/
def subListBody (p : SubListParams) : Body := p.LP.appendTo []

/-- The body built by plan Client.New (src/plan/client.go): the required
id, name, amount, currency and interval keys, then the conditional
interval_count, trial_period_days and statement_description entries, then
the shared params. -/
def planNewBody (p : PlanParams) : Body :=
  ((([("id", p.ID), ("name", p.Name), ("amount", formatUint p.Amount),
      ("currency", p.Currency), ("interval", p.Interval)]
      ++ optKV (0 < p.IntervalCount) "interval_count" (formatUint p.IntervalCount))
      ++ optKV (0 < p.TrialPeriod) "trial_period_days" (formatUint p.TrialPeriod))
      ++ optKV (0 < p.Statement.length) "statement_description" p.Statement)
    ++ p.P.extra

/-- The body built by plan Client.Get when params is non-nil: only the
shared params. -/
def planGetBody (p : PlanParams) : Body := p.P.extra

/-- The body built by plan Client.Update when params is non-nil. -/
def planUpdateBody (p : PlanParams) : Body :=
  (optKV (0 < p.Name.length) "name" p.Name
      ++ optKV (0 < p.Statement.length) "statement_description" p.Statement)
    ++ p.P.extra

/-- The body built by plan Client.List when params is non-nil. -/
def planListBody (p : PlanListParams) : Body := p.LP.appendTo []

/-- The single network request handed to Backend.Call: HTTP method, URL
path, API key, and the optional form body (none models a nil url.Values
pointer). -/
structure Request where
  method : String
  path : String
  key : String
  body : Option Body

/-- The Backend collaborator (external interface).  Call is modelled as a
function from the request and the destination contents (none when the Go
caller passes a nil destination) to the decoded destination contents and
the returned error. -/
structure Backend (α : Type) where
  call : Request → Option α → α × Option String

/-- Modelled from the spec: resource entities are flat records mirroring
remote API fields.  No claim inspects the fields of stripe.Sub, so a
representative subset stands in for it. -/
structure Sub where
  ID : String := ""
  Status : String := ""

/-- Modelled from the spec: a representative subset of stripe.Plan. -/
structure Plan where
  ID : String := ""
  Name : String := ""

/-- Modelled from the spec: per-page result metadata (total count and the
has-more flag). -/
structure ListMeta where
  TotalCount : Nat := 0
  HasMore : Bool := false
  deriving DecidableEq

/-- Modelled from the spec: the generic list iterator state.  It owns the
page-fetch function, the identifier extractor for cursor updates, the base
list params, the current request body, the current page buffer, the last
seen metadata, the pending error, and whether a first fetch happened. -/
structure Iter (α : Type) where
  fetch : Body → List α × ListMeta × Option String
  getID : α → String
  params : Option ListParams
  body : Body
  values : List α
  meta : Option ListMeta
  err : Option String
  started : Bool

/-- The outcome of one Next call: an item, the end-of-sequence signal
(not an error), or a fetch error. -/
inductive NextRes (α : Type) where
  | item : α → NextRes α
  | stop : NextRes α
  | fail : String → NextRes α
  deriving DecidableEq

/-- Modelled from the spec: iterator construction from optional base list
params, the encoded body, and the page-fetch function. -/
def GetIter {α : Type} (lp : Option ListParams) (b : Body)
    (fetch : Body → List α × ListMeta × Option String) (getID : α → String) : Iter α :=
  { fetch := fetch, getID := getID, params := lp, body := b,
    values := [], meta := none, err := none, started := false }

/-- Replaces the after cursor in the body with the given identifier,
modelling url.Values Set semantics. -/
def setAfter (b : Body) (id : String) : Body :=
  b.filter (fun kv => kv.1 ≠ "starting_after") ++ [("starting_after", id)]

/-- Delivers one item from the page buffer: the last delivered item
becomes the new after cursor for the next page fetch. -/
def Iter.deliver {α : Type} (i : Iter α) (v : α) (rest : List α) : NextRes α × Iter α :=
  (NextRes.item v, { i with values := rest, body := setAfter i.body (i.getID v) })

/-- Modelled from the spec: fetch one page synchronously; on error the
iterator becomes terminal, otherwise the first item of the new page is
returned. -/
def Iter.doFetch {α : Type} (i : Iter α) : NextRes α × Iter α :=
  match i.fetch i.body with
  | (_, _, some e) => (NextRes.fail e, { i with err := some e, started := true })
  | (vals, m, none) =>
    match vals with
    | [] => (NextRes.stop, { i with values := [], meta := some m, started := true })
    | v :: rest =>
        Iter.deliver { i with values := vals, meta := some m, started := true } v rest

/-- Modelled from the spec: Next returns the next item, lazily fetching
the first page, advancing to the next page when the buffer is exhausted
and more pages exist, signalling end-of-sequence otherwise, and returning
the same error forever once a fetch failed. -/
def Iter.next {α : Type} (i : Iter α) : NextRes α × Iter α :=
  match i.err with
  | some e => (NextRes.fail e, i)
  | none =>
    if i.started then
      match i.values with
      | v :: rest => i.deliver v rest
      | [] =>
        match i.meta with
        | some m => if m.HasMore then i.doFetch else (NextRes.stop, i)
        | none => (NextRes.stop, i)
    else
      i.doFetch

/-- Modelled from the spec: Stop is true when no more items are
obtainable, either terminal error state or an exhausted buffer with no
further pages. -/
def Iter.Stop {α : Type} (i : Iter α) : Bool :=
  i.err.isSome
    || (i.started && i.values.isEmpty
          && !(match i.meta with | some m => m.HasMore | none => false))

/-- Modelled from the spec: Meta returns the metadata of the most recently
fetched page, none before the first fetch. -/
def Iter.Meta {α : Type} (i : Iter α) : Option ListMeta := i.meta

/-- The subscriptions client (src/sub/client.go). -/
structure SubClient where
  B : Backend Sub
  Key : String

/-- The plans client (src/plan/client.go). -/
structure PlanClient where
  B : Backend Plan
  Key : String

/-- The request sub Client.New hands to Backend.Call. -/
def subNewReq (key : String) (p : SubParams) : Request :=
  { method := "POST", path := "/customers/" ++ p.Customer ++ "/subscriptions",
    key := key, body := some (subNewBody p) }

/-- The request sub Client.Get hands to Backend.Call. -/
def subGetReq (key id : String) (p : SubParams) : Request :=
  { method := "GET",
    path := "/customers/" ++ p.Customer ++ "/subscriptions/" ++ id,
    key := key, body := some (subGetBody p) }

/-- The request sub Client.Update hands to Backend.Call. -/
def subUpdateReq (key id : String) (p : SubParams) : Request :=
  { method := "POST",
    path := "/customers/" ++ p.Customer ++ "/subscriptions/" ++ id,
    key := key, body := some (subUpdateBody p) }

/-- The request sub Client.Cancel hands to Backend.Call. -/
def subCancelReq (key id : String) (p : SubParams) : Request :=
  { method := "DELETE",
    path := "/customers/" ++ p.Customer ++ "/subscriptions/" ++ id,
    key := key, body := some (subCancelBody p) }

/-- The request the page-fetch closure of sub Client.List hands to
Backend.Call for one page body. -/
def subListFetchReq (key cust : String) (b : Body) : Request :=
  { method := "GET", path := "/customers/" ++ cust ++ "/subscriptions",
    key := key, body := some b }

/-- The request plan Client.New hands to Backend.Call. -/
def planNewReq (key : String) (p : PlanParams) : Request :=
  { method := "POST", path := "/plans", key := key, body := some (planNewBody p) }

/-- The request plan Client.Get hands to Backend.Call: a nil params
pointer leaves the body pointer nil. -/
def planGetReq (key id : String) (p : Option PlanParams) : Request :=
  { method := "GET", path := "/plans/" ++ id, key := key, body := p.map planGetBody }

/-- The request plan Client.Update hands to Backend.Call: a nil params
pointer leaves the body pointer nil. -/
def planUpdateReq (key id : String) (p : Option PlanParams) : Request :=
  { method := "POST", path := "/plans/" ++ id, key := key, body := p.map planUpdateBody }

/-- The request plan Client.Del hands to Backend.Call. -/
def planDelReq (key id : String) : Request :=
  { method := "DELETE", path := "/plans/" ++ id, key := key, body := none }

/-- The request the page-fetch closure of plan Client.List hands to
Backend.Call for one page body. -/
def planListFetchReq (key : String) (b : Body) : Request :=
  { method := "GET", path := "/plans", key := key, body := some b }

/-- sub Client.New: allocates a fresh Sub destination, calls the Backend,
and returns that destination pointer together with the Backend error. -/
def SubClient.new (c : SubClient) (p : SubParams) : Option Sub × Option String :=
  let r := c.B.call (subNewReq c.Key p) (some {})
  (some r.1, r.2)

/-- sub Client.Get. -/
def SubClient.get (c : SubClient) (id : String) (p : SubParams) : Option Sub × Option String :=
  let r := c.B.call (subGetReq c.Key id p) (some {})
  (some r.1, r.2)

/-- sub Client.Update. -/
def SubClient.update (c : SubClient) (id : String) (p : SubParams) : Option Sub × Option String :=
  let r := c.B.call (subUpdateReq c.Key id p) (some {})
  (some r.1, r.2)

/-- sub Client.Cancel: the Backend is called with a nil destination and
only the error is returned. -/
def SubClient.cancel (c : SubClient) (id : String) (p : SubParams) : Option String :=
  (c.B.call (subCancelReq c.Key id p) none).2

/-- sub Client.List: builds the iterator over the page-fetch closure.  The
closure's decoding of the SubList destination is abstracted into the
lfetch argument; the request it hands to Backend.Call is subListFetchReq. -/
def SubClient.list (c : SubClient)
    (lfetch : Request → List Sub × ListMeta × Option String)
    (getID : Sub → String) (p : SubListParams) : Iter Sub :=
  GetIter (some p.LP) (subListBody p)
    (fun b => lfetch (subListFetchReq c.Key p.Customer b)) getID

/-- plan Client.New. -/
def PlanClient.new (c : PlanClient) (p : PlanParams) : Option Plan × Option String :=
  let r := c.B.call (planNewReq c.Key p) (some {})
  (some r.1, r.2)

/-- plan Client.Get: total in the params pointer, which may be nil. -/
def PlanClient.get (c : PlanClient) (id : String) (p : Option PlanParams) :
    Option Plan × Option String :=
  let r := c.B.call (planGetReq c.Key id p) (some {})
  (some r.1, r.2)

/-- plan Client.Update: total in the params pointer, which may be nil. -/
def PlanClient.update (c : PlanClient) (id : String) (p : Option PlanParams) :
    Option Plan × Option String :=
  let r := c.B.call (planUpdateReq c.Key id p) (some {})
  (some r.1, r.2)

/-- plan Client.Del: nil body and nil destination. -/
def PlanClient.del (c : PlanClient) (id : String) : Option String :=
  (c.B.call (planDelReq c.Key id) none).2

/-- plan Client.List: a nil params pointer leaves the base list params and
body empty (server defaults). -/
def PlanClient.list (c : PlanClient)
    (lfetch : Request → List Plan × ListMeta × Option String)
    (getID : Plan → String) (p : Option PlanListParams) : Iter Plan :=
  GetIter (p.map (fun pp => pp.LP))
    (match p with | none => [] | some pp => planListBody pp)
    (fun b => lfetch (planListFetchReq c.Key b)) getID

/-- sub Client.New over a possibly nil params pointer: the Go code reads
params.Plan unconditionally, so a nil argument never reaches Backend.Call;
none models the nil dereference panic. -/
def SubClient.newO (c : SubClient) : Option SubParams → Option (Option Sub × Option String)
  | none => none
  | some p => some (c.new p)

/-- sub Client.Get over a possibly nil params pointer: the Go code reads
params.Customer unconditionally; none models the nil dereference panic. -/
def SubClient.getO (c : SubClient) (id : String) :
    Option SubParams → Option (Option Sub × Option String)
  | none => none
  | some p => some (c.get id p)

/-- sub Client.Update over a possibly nil params pointer: the Go code
reads params.Plan unconditionally; none models the panic. -/
def SubClient.updateO (c : SubClient) (id : String) :
    Option SubParams → Option (Option Sub × Option String)
  | none => none
  | some p => some (c.update id p)

/-- sub Client.Cancel over a possibly nil params pointer: the Go code
reads params.EndCancel unconditionally; none models the panic. -/
def SubClient.cancelO (c : SubClient) (id : String) :
    Option SubParams → Option (Option String)
  | none => none
  | some p => some (c.cancel id p)

/-- sub Client.List over a possibly nil params pointer: the Go code reads
params.Customer and params.ListParams unconditionally; none models the
panic. -/
def SubClient.listO (c : SubClient)
    (lfetch : Request → List Sub × ListMeta × Option String)
    (getID : Sub → String) : Option SubListParams → Option (Iter Sub)
  | none => none
  | some p => some (c.list lfetch getID p)

/-- plan Client.New over a possibly nil params pointer: the Go code reads
params.ID unconditionally; none models the panic. -/
def PlanClient.newO (c : PlanClient) : Option PlanParams → Option (Option Plan × Option String)
  | none => none
  | some p => some (c.new p)

/-- A JSON-decoded dynamic value held in a Go interface: the event data
bags hold strings, numbers, booleans, null (also produced by a missing
map key), arrays, and nested string-keyed maps. -/
inductive JVal where
  | null : JVal
  | str : String → JVal
  | num : Int → JVal
  | bool : Bool → JVal
  | arr : List JVal → JVal
  | obj : List (String × JVal) → JVal

/-- Go map indexing: a missing key yields the zero interface value, nil. -/
def jLookup (m : List (String × JVal)) (k : String) : JVal :=
  match m.find? (fun kv => kv.1 = k) with
  | some kv => kv.2
  | none => JVal.null

/-- The loop and final checks of getValue (the Event file): after the
first key, each further key requires the current node to be a string-keyed
map (any other shape panics on the type assertion, nil included); at the
end nil becomes the empty string, a string is returned, and any other
shape panics on the string assertion.  none models a panic. -/
def getValueLoop : JVal → List String → Option String
  | JVal.null, [] => some ""
  | JVal.str s, [] => some s
  | _, [] => none
  | JVal.obj fields, k :: ks => getValueLoop (jLookup fields k) ks
  | _, _ :: _ => none

/-- getValue from the Event file: indexes the bag with the first key
(panicking on an empty key list) and runs the loop over the rest. -/
def getValue (m : List (String × JVal)) (keys : List String) : Option String :=
  match keys with
  | [] => none
  | k :: ks => getValueLoop (jLookup m k) ks

/-- The value reached by walking the full key path through string-keyed
maps: none when the walk leaves the maps early.  This formalises the
claim's notion of the value reached by the key path. -/
def nodePath : JVal → List String → Option JVal
  | node, [] => some node
  | JVal.obj fields, k :: ks => nodePath (jLookup fields k) ks
  | _, _ :: _ => none

/-- The path value starting from a bag: the first key is always an index
into the bag, the rest walk maps. -/
def pathVal (m : List (String × JVal)) : List String → Option JVal
  | [] => none
  | k :: ks => nodePath (jLookup m k) ks

/-- stripe.EventData (the Event file): the unmarshalled object and
previous-attributes bags. -/
structure EventData where
  Obj : List (String × JVal) := []
  Prev : List (String × JVal) := []

/-- stripe.Event (the Event file).  Data is a pointer and may be nil; the
Type field is renamed Ty since Type is reserved in Lean. -/
structure Event where
  ID : String := ""
  Live : Bool := false
  Created : Int := 0
  Data : Option EventData := none
  Webhooks : Nat := 0
  Ty : String := ""
  Req : String := ""

/-- Event.GetObjValue: reads e.Data.Obj (none models the panic on a nil
Data pointer) and delegates to getValue. -/
def Event.GetObjValue (e : Event) (keys : List String) : Option String :=
  match e.Data with
  | some d => getValue d.Obj keys
  | none => none

/-- Event.GetPrevValue: same over the previous-attributes bag. -/
def Event.GetPrevValue (e : Event) (keys : List String) : Option String :=
  match e.Data with
  | some d => getValue d.Prev keys
  | none => none

/-- How many entries of the body carry the given key. -/
def countKey (k : String) (b : Body) : Nat :=
  b.countP (fun kv => kv.1 == k)

/-- Reads the first value stored under a key of a body. -/
def bodyGet (b : Body) (k : String) : Option String :=
  (b.find? (fun kv => kv.1 == k)).map (fun kv => kv.2)

/-- A nonempty string made of decimal digits only. -/
def isDigitStr (s : String) : Prop :=
  s.data ≠ [] ∧ ∀ c ∈ s.data, c.isDigit = true

/-- A string ending in a decimal point followed by exactly two digits,
with no other decimal point. -/
def twoDecimalStr (s : String) : Prop :=
  ∃ a b c, s = a ++ "." ++ String.mk [b, c] ∧
    b.isDigit = true ∧ c.isDigit = true ∧ '.' ∉ a.data

/-- A backend stub whose Call decodes nothing and reports no error. -/
def demoSubBackend : Backend Sub := ⟨fun _ d => (d.getD {}, none)⟩

/-- A concrete subscriptions client over the stub backend. -/
def demoSubClient : SubClient := ⟨demoSubBackend, "sk_demo"⟩

/-- A backend stub for the plans client. -/
def demoPlanBackend : Backend Plan := ⟨fun _ d => (d.getD {}, none)⟩

/-- A concrete plans client over the stub backend. -/
def demoPlanClient : PlanClient := ⟨demoPlanBackend, "sk_demo"⟩

/-- A page-fetch function supplying three items: a first page of two with
more to come, then (after the cursor points at item2) a final page of
one. -/
def c1Fetch : Body → List String × ListMeta × Option String := fun b =>
  match bodyGet b "starting_after" with
  | none => (["item1", "item2"], { TotalCount := 3, HasMore := true }, none)
  | some a =>
      if a = "item2" then (["item3"], { TotalCount := 3, HasMore := false }, none)
      else ([], { TotalCount := 3, HasMore := false }, none)

/-- The iterator of the concrete pagination scenario: constructed from
ListParams with Limit 2 and the three-item fetch function. -/
def c1Iter : Iter String :=
  GetIter (some { Limit := 2 })
    (subListBody { LP := { Limit := 2 }, Customer := "cus_1" })
    c1Fetch (fun s => s)

/-- First Next call of the scenario. -/
def c1r1 : NextRes String × Iter String := c1Iter.next

/-- Second Next call of the scenario. -/
def c1r2 : NextRes String × Iter String := c1r1.2.next

/-- Third Next call of the scenario. -/
def c1r3 : NextRes String × Iter String := c1r2.2.next

/-- Fourth Next call of the scenario. -/
def c1r4 : NextRes String × Iter String := c1r3.2.next

/-- A page-fetch function that succeeds on the first page of two items
and fails on every later page. -/
def c5Fetch : Body → List String × ListMeta × Option String := fun b =>
  match bodyGet b "starting_after" with
  | none => (["a1", "a2"], { TotalCount := 3, HasMore := true }, none)
  | some _ => ([], { TotalCount := 0, HasMore := false }, some "boom")

/-- The iterator of the failing-second-page scenario. -/
def c5Iter : Iter String :=
  GetIter (some { Limit := 2 }) [("limit", "2")] c5Fetch (fun s => s)

/-- First Next call of the failing scenario: delivers the first item. -/
def c5r1 : NextRes String × Iter String := c5Iter.next

/-- Second Next call: delivers the second item of page one. -/
def c5r2 : NextRes String × Iter String := c5r1.2.next

/-- Third Next call: triggers the failing fetch of page two. -/
def c5r3 : NextRes String × Iter String := c5r2.2.next

/-- Subscription params whose optional fields are all at their zero
value. -/
def c2p : SubParams := { Plan := "gold" }

/-- Subscription params carrying a raw token and a populated nested card
object. -/
def c3p : SubParams :=
  { Plan := "gold", Token := "tok_123",
    Card := some { Token := "tok_inner", details := [("card[number]", "4242")] } }

/-- Subscription params with every numeric, boolean and percentage field
set. -/
def c7sp : SubParams :=
  { Customer := "cus_1", Plan := "gold", TrialEnd := 5, Quantity := 2,
    FeePercent := 2, NoProrate := true, EndCancel := true }

/-- Plan params with every numeric field set. -/
def c7pp : PlanParams :=
  { ID := "p1", Name := "n", Amount := 100, Currency := "usd",
    Interval := "month", IntervalCount := 2, TrialPeriod := 7 }

/-- A concrete event data bag nesting a map that holds a string and a
null, with a number in the previous-attributes bag. -/
def c9d : EventData :=
  { Obj := [("card", JVal.obj [("last4", JVal.str "4242"), ("exp", JVal.null)])],
    Prev := [("x", JVal.num 3)] }

/-- A concrete event carrying that data bag. -/
def c9e : Event := { Data := some c9d }

/-- The head of string data is preserved by appending on the right. -/
theorem data_head_append (s t : String) (c : Char) (h : s.data.head? = some c) :
    (s ++ t).data.head? = some c := by
  obtain ⟨a⟩ := s
  obtain ⟨b⟩ := t
  cases a with
  | nil => simp at h
  | cons x xs => simpa [String.data_append] using h

/-- C4 counterexample: calling the subscription New operation (and the
plan New operation) with a nil params argument is not well-defined: the
code dereferences params before any body is built, so no request with an
empty body is issued; the model returns none (a panic) on these concrete
clients. -/
theorem nil_params_not_welldefined_cex :
    SubClient.newO demoSubClient none = none ∧
    PlanClient.newO demoPlanClient none = none :=
  ⟨rfl, rfl⟩

/-- C4 (amended): only the plan client's Get, Update and List accept a nil
params argument, passing a nil body so server-side defaults apply (and Del
takes no params at all); every subscription client operation and the plan
client's New dereference the params argument unconditionally, so a nil
argument panics instead of building an empty body. -/
theorem nil_params_plan_reads_only (B : Backend Sub) (B2 : Backend Plan) (k id : String)
    (lf : Request → List Sub × ListMeta × Option String) (gid : Sub → String)
    (lf2 : Request → List Plan × ListMeta × Option String) (gid2 : Plan → String) :
    (planGetReq k id none).body = none ∧
    (planUpdateReq k id none).body = none ∧
    ((PlanClient.mk B2 k).get id none).1.isSome = true ∧
    ((PlanClient.mk B2 k).update id none).1.isSome = true ∧
    ((PlanClient.mk B2 k).list lf2 gid2 none).body = [] ∧
    (SubClient.mk B k).newO none = none ∧
    (SubClient.mk B k).getO id none = none ∧
    (SubClient.mk B k).updateO id none = none ∧
    (SubClient.mk B k).cancelO id none = none ∧
    (SubClient.mk B k).listO lf gid none = none ∧
    (PlanClient.mk B2 k).newO none = none :=
  ⟨rfl, rfl, rfl, rfl, rfl, rfl, rfl, rfl, rfl, rfl, rfl⟩

/-- C6: for every params value and every Backend, each resource-client
operation returns exactly the error value Backend.Call returned for the
request it built: never wrapped, replaced or reinterpreted, and nil
exactly when the Backend error was nil. -/
theorem backend_error_propagated_verbatim (B : Backend Sub) (B2 : Backend Plan)
    (k id : String) (sp : SubParams) (pp : PlanParams) (pg pu : Option PlanParams) :
    ((SubClient.mk B k).new sp).2 = (B.call (subNewReq k sp) (some {})).2 ∧
    ((SubClient.mk B k).get id sp).2 = (B.call (subGetReq k id sp) (some {})).2 ∧
    ((SubClient.mk B k).update id sp).2 = (B.call (subUpdateReq k id sp) (some {})).2 ∧
    (SubClient.mk B k).cancel id sp = (B.call (subCancelReq k id sp) none).2 ∧
    ((PlanClient.mk B2 k).new pp).2 = (B2.call (planNewReq k pp) (some {})).2 ∧
    ((PlanClient.mk B2 k).get id pg).2 = (B2.call (planGetReq k id pg) (some {})).2 ∧
    ((PlanClient.mk B2 k).update id pu).2 = (B2.call (planUpdateReq k id pu) (some {})).2 ∧
    (PlanClient.mk B2 k).del id = (B2.call (planDelReq k id) none).2 :=
  ⟨rfl, rfl, rfl, rfl, rfl, rfl, rfl, rfl⟩

/-- C8: every request a resource-client operation hands to Backend.Call
carries the verb fixed for its operation kind (POST for New and Update,
GET for Get and List, DELETE for Del and Cancel, all drawn from GET, POST
and DELETE) and a path beginning with a slash. -/
theorem fixed_verbs_and_slash_paths (k id cust : String) (sp : SubParams)
    (pp : PlanParams) (pg pu : Option PlanParams) (b b2 : Body) :
    ((subNewReq k sp).method = "POST" ∧ (subNewReq k sp).path.data.head? = some '/') ∧
    ((subGetReq k id sp).method = "GET" ∧ (subGetReq k id sp).path.data.head? = some '/') ∧
    ((subUpdateReq k id sp).method = "POST" ∧
      (subUpdateReq k id sp).path.data.head? = some '/') ∧
    ((subCancelReq k id sp).method = "DELETE" ∧
      (subCancelReq k id sp).path.data.head? = some '/') ∧
    ((subListFetchReq k cust b).method = "GET" ∧
      (subListFetchReq k cust b).path.data.head? = some '/') ∧
    ((planNewReq k pp).method = "POST" ∧ (planNewReq k pp).path.data.head? = some '/') ∧
    ((planGetReq k id pg).method = "GET" ∧ (planGetReq k id pg).path.data.head? = some '/') ∧
    ((planUpdateReq k id pu).method = "POST" ∧
      (planUpdateReq k id pu).path.data.head? = some '/') ∧
    ((planDelReq k id).method = "DELETE" ∧ (planDelReq k id).path.data.head? = some '/') ∧
    ((planListFetchReq k b2).method = "GET" ∧
      (planListFetchReq k b2).path.data.head? = some '/') := by
  have hc : ("/customers/" : String).data.head? = some '/' := rfl
  have hp : ("/plans/" : String).data.head? = some '/' := rfl
  refine ⟨⟨rfl, ?_⟩, ⟨rfl, ?_⟩, ⟨rfl, ?_⟩, ⟨rfl, ?_⟩, ⟨rfl, ?_⟩,
    ⟨rfl, rfl⟩, ⟨rfl, ?_⟩, ⟨rfl, ?_⟩, ⟨rfl, ?_⟩, ⟨rfl, rfl⟩⟩
  · exact data_head_append _ _ _ (data_head_append _ _ _ hc)
  · exact data_head_append _ _ _ (data_head_append _ _ _ (data_head_append _ _ _ hc))
  · exact data_head_append _ _ _ (data_head_append _ _ _ (data_head_append _ _ _ hc))
  · exact data_head_append _ _ _ (data_head_append _ _ _ (data_head_append _ _ _ hc))
  · exact data_head_append _ _ _ (data_head_append _ _ _ hc)
  · exact data_head_append _ _ _ hp
  · exact data_head_append _ _ _ hp
  · exact data_head_append _ _ _ hp

/-- C10: the resource pointer returned by New, Get and Update of the plan
and subscription clients is the freshly allocated destination struct and
is never nil, whatever the Backend returned for the call, a nil plan
params pointer included. -/
theorem client_returns_allocated_destination (B : Backend Sub) (B2 : Backend Plan)
    (k id : String) (sp : SubParams) (pp : PlanParams) (pg pu : Option PlanParams) :
    ((SubClient.mk B k).new sp).1.isSome = true ∧
    ((SubClient.mk B k).get id sp).1.isSome = true ∧
    ((SubClient.mk B k).update id sp).1.isSome = true ∧
    ((PlanClient.mk B2 k).new pp).1.isSome = true ∧
    ((PlanClient.mk B2 k).get id pg).1.isSome = true ∧
    ((PlanClient.mk B2 k).update id pu).1.isSome = true :=
  ⟨rfl, rfl, rfl, rfl, rfl, rfl⟩

/-- C2: when the optional Token, Card, Coupon, TrialEnd, Quantity and
FeePercent fields are all at their zero value and no shared params are
set, the subscription New body is exactly the one required plan entry;
and when additionally only Plan is non-zero (prorating not disabled), the
subscription Update body is exactly the one plan entry. -/
theorem sub_bodies_zero_optionals (p : SubParams) (hTok : p.Token = "")
    (hCard : p.Card = none) (hCoupon : p.Coupon = "") (hTE : p.TrialEnd = 0)
    (hQ : p.Quantity = 0) (hF : p.FeePercent = 0) (hExtra : p.P.extra = []) :
    subNewBody p = [("plan", p.Plan)] ∧
    (p.NoProrate = false → 0 < p.Plan.length → subUpdateBody p = [("plan", p.Plan)]) := by
  constructor
  · simp [subNewBody, optKV, hTok, hCard, hCoupon, hTE, hQ, hF, hExtra]
  · intro hNP hPlan
    simp [subUpdateBody, optKV, hTok, hCard, hCoupon, hTE, hQ, hF, hExtra, hNP, hPlan]

/-- Witness for C2 at concrete params with only Plan set. -/
theorem sub_bodies_zero_optionals_witness :
    subNewBody c2p = [("plan", "gold")] ∧ subUpdateBody c2p = [("plan", "gold")] := by
  have h := sub_bodies_zero_optionals c2p rfl rfl rfl rfl rfl rfl rfl
  exact ⟨h.1, h.2 rfl (by decide)⟩

/-- C3: with a non-empty Token string, the subscription New and Update
bodies are independent of the nested Card object, contain the card key
with the token as its value, and contain that key exactly once (the
shared params carrying no card entry of their own). -/
theorem sub_token_short_circuits_card (p : SubParams) (hTok : 0 < p.Token.length)
    (hShared : ∀ v, ("card", v) ∉ p.P.extra) :
    subNewBody p = subNewBody { p with Card := none } ∧
    subUpdateBody p = subUpdateBody { p with Card := none } ∧
    ("card", p.Token) ∈ subNewBody p ∧
    ("card", p.Token) ∈ subUpdateBody p ∧
    countKey "card" (subNewBody p) = 1 ∧
    countKey "card" (subUpdateBody p) = 1 := by
  have hz : countKey "card" p.P.extra = 0 := by
    refine List.countP_eq_zero.mpr ?_
    intro kv hkv
    simp only [beq_iff_eq, decide_eq_true_eq]
    intro hk
    exact hShared kv.2 (by simpa [← hk] using hkv)
  refine ⟨?_, ?_, ?_, ?_, ?_, ?_⟩
  · simp [subNewBody, hTok]
  · simp [subUpdateBody, hTok]
  · simp [subNewBody, hTok]
  · simp [subUpdateBody, hTok]
  · have hA : ∀ (c : Prop) [inst : Decidable c] (k v : String), (k == "card") = false →
        List.countP (fun kv => kv.1 == "card") (if c then [(k, v)] else []) = 0 := by
      intro c inst k v h
      split <;> simp [h]
    simp only [subNewBody, hTok, if_pos, countKey, List.countP_append]
    simp only [countKey] at hz
    rw [hz]
    simp only [optKV]
    rw [hA _ "coupon" _ rfl, hA _ "trial_end" _ rfl, hA _ "quantity" _ rfl,
      hA _ "application_fee_percent" _ rfl]
    rfl
  · have hA : ∀ (c : Prop) [inst : Decidable c] (k v : String), (k == "card") = false →
        List.countP (fun kv => kv.1 == "card") (if c then [(k, v)] else []) = 0 := by
      intro c inst k v h
      split <;> simp [h]
    simp only [subUpdateBody, hTok, if_pos, countKey, List.countP_append]
    simp only [countKey] at hz
    rw [hz]
    simp only [optKV]
    rw [hA _ "plan" _ rfl, hA _ "prorate" _ rfl, hA _ "coupon" _ rfl,
      hA _ "trial_end" _ rfl, hA _ "quantity" _ rfl,
      hA _ "application_fee_percent" _ rfl]
    rfl

/-- Witness for C3 at concrete params holding both a raw token and a
populated nested card object. -/
theorem sub_token_short_circuits_card_witness :
    subNewBody c3p = subNewBody { c3p with Card := none } ∧
    subUpdateBody c3p = subUpdateBody { c3p with Card := none } ∧
    ("card", "tok_123") ∈ subNewBody c3p ∧
    ("card", "tok_123") ∈ subUpdateBody c3p ∧
    countKey "card" (subNewBody c3p) = 1 ∧
    countKey "card" (subUpdateBody c3p) = 1 :=
  sub_token_short_circuits_card c3p (by decide) (fun v h => by simp [c3p] at h)


/-- Digit characters for values below ten are decimal digits. -/
theorem digitChar_isDigit (m : Nat) (h : m < 10) : (Nat.digitChar m).isDigit = true := by
  interval_cases m <;> decide

/-- The worker behind decimal rendering of naturals only prepends decimal
digit characters. -/
theorem toDigitsCore_digits (fuel : Nat) :
    ∀ (n : Nat) (ds : List Char), (∀ c ∈ ds, c.isDigit = true) →
      ∀ c ∈ Nat.toDigitsCore 10 fuel n ds, c.isDigit = true := by
  induction fuel with
  | zero =>
    intro n ds h c hc
    exact h c hc
  | succ f ih =>
    intro n ds h c hc
    have heq : Nat.toDigitsCore 10 (f + 1) n ds =
        if n / 10 = 0 then Nat.digitChar (n % 10) :: ds
        else Nat.toDigitsCore 10 f (n / 10) (Nat.digitChar (n % 10) :: ds) := rfl
    have hcons : ∀ c ∈ Nat.digitChar (n % 10) :: ds, c.isDigit = true := by
      intro c hc
      rcases List.mem_cons.mp hc with rfl | hmem
      · exact digitChar_isDigit _ (Nat.mod_lt _ (by decide))
      · exact h _ hmem
    rw [heq] at hc
    by_cases h0 : n / 10 = 0
    · rw [if_pos h0] at hc
      exact hcons c hc
    · rw [if_neg h0] at hc
      exact ih _ _ hcons c hc

/-- The decimal rendering worker never erases its accumulator. -/
theorem toDigitsCore_ne_nil (fuel : Nat) :
    ∀ (n : Nat) (ds : List Char), ds ≠ [] → Nat.toDigitsCore 10 fuel n ds ≠ [] := by
  induction fuel with
  | zero => intro n ds h; exact h
  | succ f ih =>
    intro n ds h
    have heq : Nat.toDigitsCore 10 (f + 1) n ds =
        if n / 10 = 0 then Nat.digitChar (n % 10) :: ds
        else Nat.toDigitsCore 10 f (n / 10) (Nat.digitChar (n % 10) :: ds) := rfl
    rw [heq]
    split
    · exact List.cons_ne_nil _ _
    · exact ih _ _ (List.cons_ne_nil _ _)

/-- The decimal rendering of a natural consists of digit characters. -/
theorem natRepr_digits (n : Nat) : ∀ c ∈ (Nat.repr n).data, c.isDigit = true := by
  have hd : (Nat.repr n).data = Nat.toDigits 10 n := rfl
  rw [hd]
  refine toDigitsCore_digits (n + 1) n [] ?_
  intro c hc
  simp at hc

/-- The decimal rendering of a natural is nonempty. -/
theorem natRepr_ne_nil (n : Nat) : (Nat.repr n).data ≠ [] := by
  have hd : (Nat.repr n).data = Nat.toDigits 10 n := rfl
  rw [hd]
  have heq : Nat.toDigits 10 n =
      if n / 10 = 0 then [Nat.digitChar (n % 10)]
      else Nat.toDigitsCore 10 n (n / 10) [Nat.digitChar (n % 10)] := rfl
  rw [heq]
  split
  · exact List.cons_ne_nil _ _
  · exact toDigitsCore_ne_nil _ _ _ (List.cons_ne_nil _ _)

/-- Unsigned integers are encoded as nonempty strings of decimal
digits. -/
theorem isDigitStr_formatUint (n : Nat) : isDigitStr (formatUint n) :=
  ⟨natRepr_ne_nil n, natRepr_digits n⟩

/-- Positive signed integers are encoded as nonempty strings of decimal
digits. -/
theorem isDigitStr_formatInt (i : Int) (h : 0 < i) : isDigitStr (formatInt i) := by
  unfold formatInt
  rw [if_neg (by omega : ¬ i < 0)]
  exact ⟨natRepr_ne_nil _, natRepr_digits _⟩

/-- The fixed-point percentage rendering always ends in a decimal point
followed by exactly two digits. -/
theorem formatFloat2_twoDecimal (q : ℚ) : twoDecimalStr (formatFloat2 q) := by
  refine ⟨(if round (q * 100) < 0 then "-" else "")
      ++ Nat.repr ((round (q * 100)).natAbs / 100),
    Nat.digitChar ((round (q * 100)).natAbs / 10 % 10),
    Nat.digitChar ((round (q * 100)).natAbs % 10), rfl,
    digitChar_isDigit _ (Nat.mod_lt _ (by decide)),
    digitChar_isDigit _ (Nat.mod_lt _ (by decide)), ?_⟩
  rw [String.data_append]
  intro hmem
  rcases List.mem_append.mp hmem with hs | hr
  · revert hs
    split <;> intro hs <;> exact absurd hs (by decide)
  · exact absurd (natRepr_digits _ _ hr) (by decide)

/-- C7: the encoders render the integer-valued parameters TrialEnd,
Quantity, TrialPeriod, IntervalCount and Amount as base-10 decimal
strings, the boolean-valued at_period_end and prorate parameters as the
literal strings true and false, and the FeePercent percentage with
exactly two decimal digits. -/
theorem numeric_encoding_formats (sp : SubParams) (pp : PlanParams) :
    (0 < sp.TrialEnd →
      ("trial_end", formatInt sp.TrialEnd) ∈ subNewBody sp ∧
      ("trial_end", formatInt sp.TrialEnd) ∈ subUpdateBody sp ∧
      isDigitStr (formatInt sp.TrialEnd)) ∧
    (0 < sp.Quantity →
      ("quantity", formatUint sp.Quantity) ∈ subNewBody sp ∧
      ("quantity", formatUint sp.Quantity) ∈ subUpdateBody sp ∧
      isDigitStr (formatUint sp.Quantity)) ∧
    (("amount", formatUint pp.Amount) ∈ planNewBody pp ∧
      isDigitStr (formatUint pp.Amount)) ∧
    (0 < pp.IntervalCount →
      ("interval_count", formatUint pp.IntervalCount) ∈ planNewBody pp ∧
      isDigitStr (formatUint pp.IntervalCount)) ∧
    (0 < pp.TrialPeriod →
      ("trial_period_days", formatUint pp.TrialPeriod) ∈ planNewBody pp ∧
      isDigitStr (formatUint pp.TrialPeriod)) ∧
    (sp.EndCancel = true → ("at_period_end", "true") ∈ subCancelBody sp) ∧
    (sp.NoProrate = true → ("prorate", "false") ∈ subUpdateBody sp) ∧
    (0 < sp.FeePercent →
      ("application_fee_percent", formatFloat2 sp.FeePercent) ∈ subNewBody sp ∧
      ("application_fee_percent", formatFloat2 sp.FeePercent) ∈ subUpdateBody sp ∧
      twoDecimalStr (formatFloat2 sp.FeePercent)) := by
  refine ⟨?_, ?_, ⟨?_, isDigitStr_formatUint _⟩, ?_, ?_, ?_, ?_, ?_⟩
  · intro h
    exact ⟨by simp [subNewBody, optKV, h], by simp [subUpdateBody, optKV, h],
      isDigitStr_formatInt _ h⟩
  · intro h
    exact ⟨by simp [subNewBody, optKV, h], by simp [subUpdateBody, optKV, h],
      isDigitStr_formatUint _⟩
  · simp [planNewBody, optKV]
  · intro h
    exact ⟨by simp [planNewBody, optKV, h], isDigitStr_formatUint _⟩
  · intro h
    exact ⟨by simp [planNewBody, optKV, h], isDigitStr_formatUint _⟩
  · intro h
    simp [subCancelBody, optKV, h, formatBool]
  · intro h
    simp [subUpdateBody, optKV, h, formatBool]
  · intro h
    exact ⟨by simp [subNewBody, optKV, h], by simp [subUpdateBody, optKV, h],
      formatFloat2_twoDecimal _⟩

/-- Witness for C7 at concrete params with every numeric, boolean and
percentage field set. -/
theorem numeric_encoding_formats_witness :
    ("trial_end", formatInt (5 : Int)) ∈ subNewBody c7sp ∧
    ("quantity", formatUint 2) ∈ subNewBody c7sp ∧
    ("amount", formatUint 100) ∈ planNewBody c7pp ∧
    ("interval_count", formatUint 2) ∈ planNewBody c7pp ∧
    ("trial_period_days", formatUint 7) ∈ planNewBody c7pp ∧
    ("at_period_end", "true") ∈ subCancelBody c7sp ∧
    ("prorate", "false") ∈ subUpdateBody c7sp ∧
    twoDecimalStr (formatFloat2 (2 : ℚ)) := by
  have h := numeric_encoding_formats c7sp c7pp
  exact ⟨(h.1 (by decide)).1, (h.2.1 (by decide)).1, h.2.2.1.1,
    (h.2.2.2.1 (by decide)).1, (h.2.2.2.2.1 (by decide)).1,
    h.2.2.2.2.2.1 rfl, h.2.2.2.2.2.2.1 rfl,
    (h.2.2.2.2.2.2.2 (by norm_num [c7sp])).2.2⟩


/-- One step of the event lookup characterised against the path walk: the
loop yields a string result exactly when the walk stays inside
string-keyed maps and the reached value is null (yielding the empty
string) or a string. -/
theorem getValueLoop_iff (ks : List String) : ∀ (node : JVal) (r : String),
    getValueLoop node ks = some r ↔
      (nodePath node ks = some JVal.null ∧ r = "") ∨
        nodePath node ks = some (JVal.str r) := by
  induction ks with
  | nil =>
    intro node r
    cases node <;> simp [getValueLoop, nodePath]
    exact comm
  | cons k ks ih =>
    intro node r
    cases node <;> simp [getValueLoop, nodePath]
    exact ih _ _

/-- C9: for an event whose data pointer is set, GetObjValue and
GetPrevValue panic on an empty key list, and on a nonempty key list they
return a string exactly when the full key path stays inside string-keyed
maps and reaches null (giving the empty string) or a string value; every
other shape of path, an absent or non-map intermediate value or a non-nil
non-string final value, panics (modelled as none). -/
theorem event_getValue_partial_lookup (e : Event) (d : EventData)
    (hd : e.Data = some d) (keys : List String) (r : String) (hne : keys ≠ []) :
    e.GetObjValue [] = none ∧ e.GetPrevValue [] = none ∧
    (e.GetObjValue keys = some r ↔
      (pathVal d.Obj keys = some JVal.null ∧ r = "") ∨
        pathVal d.Obj keys = some (JVal.str r)) ∧
    (e.GetPrevValue keys = some r ↔
      (pathVal d.Prev keys = some JVal.null ∧ r = "") ∨
        pathVal d.Prev keys = some (JVal.str r)) := by
  cases keys with
  | nil => exact absurd rfl hne
  | cons k ks =>
    refine ⟨by simp [Event.GetObjValue, hd, getValue],
      by simp [Event.GetPrevValue, hd, getValue], ?_, ?_⟩
    · simp only [Event.GetObjValue, hd, getValue, pathVal]
      exact getValueLoop_iff _ _ _
    · simp only [Event.GetPrevValue, hd, getValue, pathVal]
      exact getValueLoop_iff _ _ _

/-- Witness for C9 at a concrete event: a null leaf reads back as the
empty string, a string leaf reads back as itself, and the empty key list
panics. -/
theorem event_getValue_partial_lookup_witness :
    c9e.GetObjValue [] = none ∧
    c9e.GetObjValue ["card", "exp"] = some "" ∧
    c9e.GetObjValue ["card", "last4"] = some "4242" := by
  refine ⟨(event_getValue_partial_lookup c9e c9d rfl ["card", "exp"] ""
      (by decide)).1, ?_, ?_⟩
  · exact (event_getValue_partial_lookup c9e c9d rfl ["card", "exp"] ""
      (by decide)).2.2.1.mpr (Or.inl ⟨rfl, rfl⟩)
  · exact (event_getValue_partial_lookup c9e c9d rfl ["card", "last4"] "4242"
      (by decide)).2.2.1.mpr (Or.inr rfl)

/-- A failed page fetch records its error in the iterator state. -/
theorem doFetch_fail {α : Type} (i : Iter α) (e : String)
    (h : (i.doFetch).1 = NextRes.fail e) : (i.doFetch).2.err = some e := by
  unfold Iter.doFetch at h ⊢
  rcases hf : i.fetch i.body with ⟨vals, m, err⟩
  rw [hf] at h
  cases err with
  | some e0 =>
    simp at h
    simp [h]
  | none =>
    cases vals with
    | nil => simp at h
    | cons v rest => simp [Iter.deliver] at h

/-- C5: once a Next call has returned a fetch error, the error is stored
in the iterator; and an iterator holding an error is terminal: every
further Next call returns the same error without changing the state, and
Stop is true. -/
theorem iter_error_terminal {α : Type} (i : Iter α) (e : String) :
    ((i.next).1 = NextRes.fail e → (i.next).2.err = some e) ∧
    (i.err = some e →
      (i.next).1 = NextRes.fail e ∧ (i.next).2 = i ∧ i.Stop = true) := by
  obtain ⟨f, gid, lp, b, vals, meta, err, started⟩ := i
  constructor
  · intro h
    cases err with
    | some e0 =>
      simp [Iter.next] at h
      simp [Iter.next, h]
    | none =>
      cases started with
      | true =>
        cases vals with
        | cons v rest => simp [Iter.next, Iter.deliver] at h
        | nil =>
          cases meta with
          | some m =>
            obtain ⟨cnt, more⟩ := m
            cases more with
            | true =>
              simp only [Iter.next] at h ⊢
              exact doFetch_fail _ _ h
            | false => simp [Iter.next] at h
          | none => simp [Iter.next] at h
      | false =>
        simp only [Iter.next] at h ⊢
        exact doFetch_fail _ _ h
  · intro h
    have herr : err = some e := h
    subst herr
    exact ⟨by simp [Iter.next], by simp [Iter.next], by simp [Iter.Stop]⟩

/-- Witness for C5 on the failing-second-page scenario: both items of the
successful first page are delivered, the third Next call surfaces the
fetch error, after which Next keeps returning the same error with the
state unchanged and Stop is true. -/
theorem iter_error_terminal_witness :
    c5r1.1 = NextRes.item "a1" ∧ c5r2.1 = NextRes.item "a2" ∧
    c5r3.1 = NextRes.fail "boom" ∧ c5r3.2.err = some "boom" ∧
    (c5r3.2.next).1 = NextRes.fail "boom" ∧ (c5r3.2.next).2 = c5r3.2 ∧
    c5r3.2.Stop = true := by
  have herr : c5r3.2.err = some "boom" := by decide
  have h := (iter_error_terminal c5r3.2 "boom").2 herr
  exact ⟨by decide, by decide, by decide, herr, h.1, h.2.1, h.2.2⟩

/-- C1: over a fetch function supplying three items in a page of two and
then a page of one, the iterator built from ListParams with Limit 2
yields the three items in order across the successive Next calls, then
signals end-of-sequence; Stop is true right after the third item (and not
before it), and the metadata of the final page reports no more items. -/
theorem iter_limit2_three_items_scenario :
    c1r1.1 = NextRes.item "item1" ∧
    c1r2.1 = NextRes.item "item2" ∧
    c1r3.1 = NextRes.item "item3" ∧
    c1r4.1 = NextRes.stop ∧
    c1r2.2.Stop = false ∧
    c1r3.2.Stop = true ∧
    c1r3.2.Meta = some { TotalCount := 3, HasMore := false } := by
  decide

end Stripe
